import Mathlib

/-
  Shallow embedding of the SafeguardX backend threat-detection module
  (src/backend/app/Routes/threat_detect.py).

  Modelling conventions:
  * Python floats are modelled as rationals (ℚ); `random.uniform(0, 0.2)` and
    `random.choice` are modelled by explicit parameters (a noise rational and a
    choice index), making every operation a pure function of its inputs.
  * Timestamps (`datetime.now().isoformat()`) are modelled as an abstract
    `Nat` clock value passed into each operation.
  * In the source, `active_threats` and `threat_history` receive exactly the
    same dict objects in the same order (both are only ever `append`ed the
    freshly created threat, and neither list is otherwise structurally
    modified), and status mutations go through the shared objects.  The
    embedding therefore keeps a single list `threats`; both Python lists
    denote it.
  * The two `async` background tasks are split into their atomic segments
    (the code between consecutive `await` points) and a pending-task list is
    kept in the state; a scheduler event runs one segment of one pending
    task, so every interleaving of the tasks with the HTTP handlers is a
    trace of events.
-/

namespace SafeguardX

/-- Request body of POST /analyze (`class LogEntry(BaseModel)`). -/
structure LogEntry where
  source : String
  level : String
  message : String
  metadata : List (String × String) := []
deriving DecidableEq

/-- Result of `AnomalyDetector.classify_threat` (a transient dict). -/
structure Classification where
  severity : String
  category : String
  risk_level : Nat
  immediate_action : Bool
deriving DecidableEq

/-- A threat record (the dict built in `analyze_log`, lines 115-126, plus the
fields added later by `respond_to_threat` and the background tasks; absent
dict keys are `none`). -/
structure Threat where
  id : Nat
  log_id : Nat
  timestamp : Nat
  source : String
  severity : String
  category : String
  confidence : ℚ
  status : String
  risk_level : Nat
  description : String
  response_initiated : Option Nat := none
  response_type : Option String := none
  auto_response_started : Option Nat := none
  resolved_timestamp : Option Nat := none
  response_actions : Option (List String) := none
  playbook_executed : Option String := none
  resolution_timestamp : Option Nat := none
  resolution_summary : Option String := none
deriving DecidableEq

/-- An alert record (the dict built in `analyze_log`, lines 132-140). -/
structure Alert where
  id : Nat
  threat_id : Nat
  severity : String
  message : String
  timestamp : Nat
  read : Bool
  actions_required : Bool
  read_timestamp : Option Nat := none
deriving DecidableEq

/-- The category-specific remediation helpers at the bottom of the file. -/
inductive RemKind where
  | blockIp
  | isolate
  | quarantine
deriving DecidableEq

/-- Program counter of a pending background task: each constructor is one
atomic segment (code between `await` points) still to run.
`autoStart` is `initiate_automated_response` up to its first mutation
(after `asyncio.sleep(1)`); `autoRem k` is the body of the remediation helper
(after its `asyncio.sleep(0.5)`); `autoFinish` is the final resolution
(after `asyncio.sleep(2)`); `pbStart` is the first segment of
`execute_response_playbook` (it has no leading sleep); `pbFinish` is its
final resolution (after `asyncio.sleep(3)`). -/
inductive TaskPC where
  | autoStart
  | autoRem (k : RemKind)
  | autoFinish
  | pbStart (action : String)
  | pbFinish (action : String)
deriving DecidableEq

/-- A pending background-task segment. -/
structure BgTask where
  threat_id : Nat
  pc : TaskPC
deriving DecidableEq

/-- The module-level mutable state: `active_threats`/`threat_history`
(one list, see header comment), `system_alerts`, and the pending
background-task segments. -/
structure SysState where
  threats : List Threat
  system_alerts : List Alert
  tasks : List BgTask
deriving DecidableEq

/-- The empty startup state (lines 22-24). -/
def init : SysState := ⟨[], [], []⟩

/-! ### Scorer (`class AnomalyDetector`) -/

/-- `self.risk_patterns` (lines 30-33). -/
def risk_patterns : List String :=
  ["failed login", "brute force", "sql injection", "malware",
   "ddos", "port scan", "privilege escalation", "data exfiltration"]

/-- Does `pat` match at the head of `l`? (helper for the substring test) -/
def matchHere : List Char → List Char → Bool
  | [], _ => true
  | _ :: _, [] => false
  | p :: ps, c :: cs => p == c && matchHere ps cs

/-- Python's `pat in s` substring containment, on character lists. -/
def hasSub : List Char → List Char → Bool
  | [], pat => matchHere pat []
  | c :: cs, pat => matchHere pat (c :: cs) || hasSub cs pat

/-- Lower-cased character list of a string (Python `s.lower()`). -/
def lowerChars (s : String) : List Char := s.data.map Char.toLower

/-- `level_scores.get(log_entry.level, 0.1)` (lines 46-47). -/
def level_score (level : String) : ℚ :=
  if level = "CRITICAL" then 4/10
  else if level = "ERROR" then 3/10
  else if level = "WARN" then 2/10
  else if level = "INFO" then 1/10
  else 1/10

/-- `AnomalyDetector.detect_anomaly` (lines 35-52).  `r` is the value drawn
by `random.uniform(0, 0.2)`. -/
def detect_anomaly (e : LogEntry) (r : ℚ) : ℚ :=
  let message_lower := lowerChars e.message
  let score :=
    risk_patterns.foldl
      (fun sc pattern => if hasSub message_lower pattern.data then sc + 3/10 else sc)
      (1/10)
  let score := score + level_score e.level
  let score := score + r
  min score 1

/-- `random.choice l`, with the random draw modelled by the index `i`. -/
def choose (l : List String) (i : Nat) : String := l.getD (i % l.length) ""

/-- `AnomalyDetector.classify_threat` (lines 54-83).  The `source` argument is
accepted and unused, as in the source; `cidx` models the `random.choice`
draw. -/
def classify_threat (score : ℚ) (source : String) (cidx : Nat) : Classification :=
  if score > 9/10 then
    ⟨"critical", choose ["APT", "Zero-day", "Data Breach"] cidx, 5, true⟩
  else if score > 7/10 then
    ⟨"high", choose ["DDoS", "Malware", "Brute Force"] cidx, 4, true⟩
  else if score > 5/10 then
    ⟨"medium", choose ["Phishing", "Policy Violation"] cidx, 3, false⟩
  else
    ⟨"low", "Informational", 1, false⟩

/-! ### Store helpers -/

/-- Python mutation of the first element matching `p` through an object
reference obtained by `next((x for x in l if ...), None)`: replace the first
match by its image under `f`, keep everything else. -/
def updateFirst {α : Type} (p : α → Bool) (f : α → α) : List α → List α
  | [] => []
  | x :: xs => if p x then f x :: xs else x :: updateFirst p f xs

/-- `next((t for t in active_threats if t['id'] == threat_id), None)`. -/
def findThreat (s : SysState) (tid : Nat) : Option Threat :=
  s.threats.find? (fun t => t.id == tid)

/-- `next((a for a in system_alerts if a['id'] == alert_id), None)`. -/
def findAlert (s : SysState) (aid : Nat) : Option Alert :=
  s.system_alerts.find? (fun a => a.id == aid)

/-- `round(x, 2)` on the score scaled to a percentage. -/
def round2 (q : ℚ) : ℚ := ((round (q * 100) : ℤ) : ℚ) / 100

/-! ### HTTP handlers -/

/-- The JSON body returned by POST /analyze (`response_data`); the
`threat_detected` / `threat` / `alert` keys are only present when a threat
was generated, modis as `Bool`/`Option` here. -/
structure AnalyzeResponse where
  log_id : Nat
  anomaly_score : ℚ
  status : String
  threat_detected : Bool := false
  threat : Option Threat := none
  alert : Option Alert := none
deriving DecidableEq

/-- `analyze_log` (lines 87-153).  `r` models `random.uniform(0, 0.2)`,
`cidx` the `random.choice` draw inside `classify_threat`, `now` the clock. -/
def analyze_log (s : SysState) (e : LogEntry) (r : ℚ) (cidx : Nat) (now : Nat) :
    AnalyzeResponse × SysState :=
  let anomaly_score := detect_anomaly e r
  -- log_record['id'] = len(threat_history) + 1  (line 96)
  let log_id := s.threats.length + 1
  if anomaly_score > 6/10 then
    let c := classify_threat anomaly_score e.source cidx
    let threat : Threat :=
      { id := s.threats.length + 1          -- len(active_threats) + 1 (line 116)
        log_id := log_id
        timestamp := now
        source := e.source
        severity := c.severity
        category := c.category
        confidence := round2 (anomaly_score * 100)
        status := "active"
        risk_level := c.risk_level
        description := c.category ++ " detected from " ++ e.source }
    let alert : Alert :=
      { id := s.system_alerts.length + 1    -- len(system_alerts) + 1 (line 133)
        threat_id := threat.id
        severity := threat.severity
        message := "🚨 " ++ threat.category ++ " detected from " ++ threat.source
        timestamp := now
        read := false
        actions_required := c.immediate_action }
    let s := { s with
      threats := s.threats ++ [threat]
      system_alerts := s.system_alerts ++ [alert]
      -- background_tasks.add_task(initiate_automated_response, ...) (line 151)
      tasks := s.tasks ++
        (if c.immediate_action then [⟨threat.id, TaskPC.autoStart⟩] else []) }
    (⟨log_id, anomaly_score, "processed", true, some threat, some alert⟩, s)
  else
    (⟨log_id, anomaly_score, "processed", false, none, none⟩, s)

/-- `get_active_threats` (lines 155-161). -/
def get_active_threats (s : SysState) : List Threat × Nat :=
  let l := s.threats.filter (fun t => t.status == "active")
  (l, l.length)

/-- Python `threat_history[-limit:]` for a non-negative `limit`:
`[-0:]` is the whole list, otherwise the last `limit` elements. -/
def sliceLastPy (l : List Threat) (limit : Nat) : List Threat :=
  if limit = 0 then l else l.drop (l.length - limit)

/-- `get_threat_history` (lines 163-169); `limit` defaults to 100 at the
HTTP layer. -/
def get_threat_history (s : SysState) (limit : Nat) : List Threat × Nat :=
  (sliceLastPy s.threats limit, s.threats.length)

/-- Outcome of POST /threats/{id}/respond. -/
inductive RespondResult where
  | notFound                       -- HTTPException 404
  | invalidState                   -- HTTPException 400
  | success (response_type : String)
deriving DecidableEq

/-- The mutation applied to the threat by `respond_to_threat`
(lines 183-185). -/
def respondUpdate (action : String) (now : Nat) (t : Threat) : Threat :=
  { t with status := "responding"
           response_initiated := some now
           response_type := some action }

/-- `respond_to_threat` (lines 171-194). -/
def respond_to_threat (s : SysState) (threat_id : Nat) (action : String) (now : Nat) :
    RespondResult × SysState :=
  match findThreat s threat_id with
  | none => (RespondResult.notFound, s)
  | some threat =>
    if threat.status ≠ "active" then
      (RespondResult.invalidState, s)
    else
      (RespondResult.success action,
       { s with
         threats := updateFirst (fun t => t.id == threat_id) (respondUpdate action now) s.threats
         -- background_tasks.add_task(execute_response_playbook, ...) (line 188)
         tasks := s.tasks ++ [⟨threat_id, TaskPC.pbStart action⟩] })

/-- `get_alerts` (lines 196-207). -/
def get_alerts (s : SysState) (unread_only : Bool) : List Alert × Nat :=
  let alerts := if unread_only then s.system_alerts.filter (fun a => !a.read) else s.system_alerts
  (alerts, (s.system_alerts.filter (fun a => !a.read)).length)

/-- Outcome of PUT /alerts/{id}/read. -/
inductive MarkResult where
  | notFound                       -- HTTPException 404
  | success
deriving DecidableEq

/-- The mutation applied to the alert by `mark_alert_read` (lines 216-217). -/
def markReadUpdate (now : Nat) (a : Alert) : Alert :=
  { a with read := true, read_timestamp := some now }

/-- `mark_alert_read` (lines 209-219). -/
def mark_alert_read (s : SysState) (alert_id : Nat) (now : Nat) :
    MarkResult × SysState :=
  match findAlert s alert_id with
  | none => (MarkResult.notFound, s)
  | some _ =>
    (MarkResult.success,
     { s with system_alerts :=
        updateFirst (fun a => a.id == alert_id) (markReadUpdate now) s.system_alerts })

/-! ### Background tasks (lines 238-296), split at `await` points -/

/-- The remediation dispatch of `initiate_automated_response`
(lines 249-254): which helper is awaited for a category, if any. -/
def remFor (category : String) : Option RemKind :=
  if category = "DDoS" ∨ category = "Brute Force" then some RemKind.blockIp
  else if category = "Malware" ∨ category = "APT" then some RemKind.isolate
  else if category = "Phishing" then some RemKind.quarantine
  else none

/-- The action string appended by each remediation helper (lines 286-296). -/
def remAction : RemKind → String
  | RemKind.blockIp => "IP address blocked at firewall"
  | RemKind.isolate => "System isolated from network"
  | RemKind.quarantine => "Malicious email quarantined"

/-- `playbook_actions.get(action_type, ['Default response'])`
(lines 268-274). -/
def playbook_actions (action_type : String) : List String :=
  if action_type = "auto_mitigate" then
    ["Block suspicious IP", "Isolate affected system", "Notify security team"]
  else if action_type = "investigate" then
    ["Collect forensic data", "Analyze threat vectors", "Generate report"]
  else if action_type = "contain" then
    ["Network segmentation", "Access restrictions", "Monitor communications"]
  else
    ["Default response"]

/-- Mutation of `initiate_automated_response` lines 245-246. -/
def mitigateUpdate (now : Nat) (t : Threat) : Threat :=
  { t with status := "mitigating", auto_response_started := some now }

/-- `threat.setdefault('response_actions', []).append(a)`
(lines 288, 292, 296). -/
def appendActionUpdate (a : String) (t : Threat) : Threat :=
  { t with response_actions := some (t.response_actions.getD [] ++ [a]) }

/-- Mutation of `initiate_automated_response` lines 258-259. -/
def autoResolveUpdate (now : Nat) (t : Threat) : Threat :=
  { t with status := "resolved", resolved_timestamp := some now }

/-- Mutation of `execute_response_playbook` lines 275-276. -/
def playbookSetupUpdate (action : String) (t : Threat) : Threat :=
  { t with response_actions := some (playbook_actions action)
           playbook_executed := some action }

/-- Mutation of `execute_response_playbook` lines 281-283. -/
def playbookResolveUpdate (action : String) (now : Nat) (t : Threat) : Threat :=
  { t with status := "resolved"
           resolution_timestamp := some now
           resolution_summary := some ("Threat resolved using " ++ action ++ " playbook") }

/-- Run one atomic segment of a pending background task; returns the segments
it still has to run (as new pending tasks) and the mutated state.  The
`tasks` field of the state is left untouched by this function. -/
def stepTask (s : SysState) (tk : BgTask) (now : Nat) : List BgTask × SysState :=
  match tk.pc with
  | TaskPC.autoStart =>
    -- initiate_automated_response after sleep(1): lines 243-254
    match findThreat s tk.threat_id with
    | none => ([], s)
    | some threat =>
      let s := { s with threats :=
                   updateFirst (fun t => t.id == tk.threat_id) (mitigateUpdate now) s.threats }
      match remFor threat.category with
      | some k => ([⟨tk.threat_id, TaskPC.autoRem k⟩], s)
      | none => ([⟨tk.threat_id, TaskPC.autoFinish⟩], s)
  | TaskPC.autoRem k =>
    -- remediation helper body after its sleep(0.5): lines 288/292/296
    ([⟨tk.threat_id, TaskPC.autoFinish⟩],
     { s with threats :=
                updateFirst (fun t => t.id == tk.threat_id)
                  (appendActionUpdate (remAction k)) s.threats })
  | TaskPC.autoFinish =>
    -- initiate_automated_response after sleep(2): lines 258-259
    ([], { s with threats :=
                    updateFirst (fun t => t.id == tk.threat_id) (autoResolveUpdate now) s.threats })
  | TaskPC.pbStart action =>
    -- execute_response_playbook before its sleep(3): lines 263-276
    match findThreat s tk.threat_id with
    | none => ([], s)
    | some _ =>
      ([⟨tk.threat_id, TaskPC.pbFinish action⟩],
       { s with threats :=
                  updateFirst (fun t => t.id == tk.threat_id) (playbookSetupUpdate action) s.threats })
  | TaskPC.pbFinish action =>
    -- execute_response_playbook after sleep(3): lines 281-283
    ([], { s with threats :=
                    updateFirst (fun t => t.id == tk.threat_id)
                      (playbookResolveUpdate action now) s.threats })

/-- One schedulable event: an HTTP request reaching a handler, or the
scheduler running the next atomic segment of the i-th pending task. -/
inductive Ev where
  | analyze (e : LogEntry) (r : ℚ) (cidx : Nat) (now : Nat)
  | respond (tid : Nat) (action : String) (now : Nat)
  | markRead (aid : Nat) (now : Nat)
  | runTask (i : Nat) (now : Nat)
deriving DecidableEq

/-- Small-step transition of the whole system under one event. -/
def stepEv (s : SysState) (ev : Ev) : SysState :=
  match ev with
  | Ev.analyze e r cidx now => (analyze_log s e r cidx now).2
  | Ev.respond tid action now => (respond_to_threat s tid action now).2
  | Ev.markRead aid now => (mark_alert_read s aid now).2
  | Ev.runTask i now =>
    match s.tasks[i]? with
    | none => s
    | some tk =>
      let s1 : SysState := { s with tasks := s.tasks.eraseIdx i }
      let p := stepTask s1 tk now
      { p.2 with tasks := p.2.tasks ++ p.1 }

/-- Concrete high-risk log event (spec §8, concrete scenario 1). -/
def e0 : LogEntry :=
  { source := "fw1", level := "CRITICAL", message := "brute force attack detected" }

/-- Concrete benign log event (spec §8, concrete scenario 2). -/
def eLow : LogEntry :=
  { source := "app", level := "INFO", message := "user logged in" }

/-- Modelled from the spec wording of `Score`: the number of risk keywords
occurring as a case-insensitive substring of the message, each keyword
counted at most once. -/
def keywordMatches (msg : String) : Nat :=
  risk_patterns.countP (fun pattern => hasSub (lowerChars msg) pattern.data)

/-- Modelled from the spec wording of `Score`: base 0.1, plus 0.3 per
distinct keyword match, plus the level increment, plus the noise draw,
clamped at 1. -/
def scoreSpec (e : LogEntry) (r : ℚ) : ℚ :=
  min (1/10 + (3/10) * (keywordMatches e.message : ℚ) + level_score e.level + r) 1

/-- Run a trace of events from the startup state. -/
def run (tr : List Ev) : SysState := tr.foldl stepEv init

end SafeguardX

namespace SafeguardX

/-! ### The store invariant -/

/-- Invariant of every reachable state: identifiers are `1, 2, ..., n` in
insertion order for threats and alerts alike; the email-quarantine
remediation string has never been appended; no pending task is about to run
the quarantine step; every pending automated-response start segment targets
a threat whose category is not quarantine-dispatching; and every pending
task references an existing threat id. -/
structure Inv (s : SysState) : Prop where
  threat_ids : s.threats.map Threat.id = List.range' 1 s.threats.length
  alert_ids : s.system_alerts.map Alert.id = List.range' 1 s.system_alerts.length
  no_qmsg : ∀ th ∈ s.threats, remAction RemKind.quarantine ∉ th.response_actions.getD []
  no_qtask : ∀ tk ∈ s.tasks, tk.pc ≠ TaskPC.autoRem RemKind.quarantine
  auto_safe : ∀ tk ∈ s.tasks, tk.pc = TaskPC.autoStart →
    ∀ th ∈ s.threats, th.id = tk.threat_id → remFor th.category ≠ some RemKind.quarantine
  task_ref : ∀ tk ∈ s.tasks, tk.threat_id ∈ s.threats.map Threat.id


/-! ### Generic facts about `updateFirst` -/

section UpdateFirstLemmas

variable {α β : Type} (p : α → Bool) (f : α → α)

theorem updateFirst_length (l : List α) :
    (updateFirst p f l).length = l.length := by
  induction l with
  | nil => rfl
  | cons x xs ih =>
    simp only [updateFirst]
    split <;> simp [ih]

theorem map_updateFirst_eq (g : α → β) (hg : ∀ x, g (f x) = g x) (l : List α) :
    (updateFirst p f l).map g = l.map g := by
  induction l with
  | nil => rfl
  | cons x xs ih =>
    simp only [updateFirst]
    split <;> simp [ih, hg]

theorem mem_updateFirst {y : α} {l : List α} (h : y ∈ updateFirst p f l) :
    y ∈ l ∨ ∃ x ∈ l, p x = true ∧ y = f x := by
  induction l with
  | nil => simp [updateFirst] at h
  | cons x xs ih =>
    simp only [updateFirst] at h
    split at h
    case isTrue hp =>
      rcases List.mem_cons.1 h with h1 | h1
      · exact Or.inr ⟨x, List.mem_cons_self x xs, hp, h1⟩
      · exact Or.inl (List.mem_cons_of_mem x h1)
    case isFalse hp =>
      rcases List.mem_cons.1 h with h1 | h1
      · exact Or.inl (h1 ▸ List.mem_cons_self x xs)
      · rcases ih h1 with h2 | ⟨z, hz, hpz, hyz⟩
        · exact Or.inl (List.mem_cons_of_mem x h2)
        · exact Or.inr ⟨z, List.mem_cons_of_mem x hz, hpz, hyz⟩

theorem find?_updateFirst (hp : ∀ x, p (f x) = p x) (l : List α) :
    (updateFirst p f l).find? p = (l.find? p).map f := by
  induction l with
  | nil => rfl
  | cons x xs ih =>
    simp only [updateFirst]
    by_cases h : p x = true
    · rw [if_pos h, List.find?_cons_of_pos _ ((hp x).trans h),
        List.find?_cons_of_pos _ h]
      rfl
    · rw [if_neg h, List.find?_cons_of_neg _ h, List.find?_cons_of_neg _ h, ih]

theorem updateFirst_updateFirst (g : α → α) (hp : ∀ x, p (f x) = p x) (l : List α) :
    updateFirst p g (updateFirst p f l) = updateFirst p (fun x => g (f x)) l := by
  induction l with
  | nil => rfl
  | cons x xs ih =>
    by_cases h : p x = true
    · simp [updateFirst, h, (hp x).trans h]
    · simp [updateFirst, h, ih]

theorem map_updateFirst_congr (g : α → β) (f1 f2 : α → α)
    (h : ∀ x, g (f1 x) = g (f2 x)) (l : List α) :
    (updateFirst p f1 l).map g = (updateFirst p f2 l).map g := by
  induction l with
  | nil => rfl
  | cons x xs ih =>
    simp only [updateFirst]
    split <;> simp [ih, h]

end UpdateFirstLemmas

section KeyedLemmas

variable {α : Type} {k : Nat}

/-- With pairwise-distinct keys, the only element of the updated list that
carries the key is the image of the unique original element with that key. -/
theorem updateFirst_key_eq (key : α → Nat) {f : α → α}
    {l : List α} (hnd : (l.map key).Nodup) :
    ∀ y ∈ updateFirst (fun x => key x == k) f l, key y = k → ∃ x ∈ l, key x = k ∧ y = f x := by
  induction l with
  | nil => intro y hy; simp [updateFirst] at hy
  | cons a as ih =>
    have hnd1 : key a ∉ as.map key := (List.nodup_cons.1 hnd).1
    have hnd2 : (as.map key).Nodup := (List.nodup_cons.1 hnd).2
    intro y hy hk
    simp only [updateFirst] at hy
    split at hy
    case isTrue hp =>
      rcases List.mem_cons.1 hy with h1 | h1
      · exact ⟨a, List.mem_cons_self a as, by simpa using hp, h1⟩
      · exfalso
        have hak : key a = k := by simpa using hp
        exact hnd1 (hak ▸ hk ▸ List.mem_map_of_mem key h1)
    case isFalse hp =>
      rcases List.mem_cons.1 hy with h1 | h1
      · exfalso
        apply hp
        have hak : key a = k := h1 ▸ hk
        simp [hak]
      · rcases ih hnd2 y h1 hk with ⟨x, hx, hxk, hyx⟩
        exact ⟨x, List.mem_cons_of_mem a hx, hxk, hyx⟩

/-- An element of the updated list whose key is not the targeted key was
present unchanged in the original list. -/
theorem updateFirst_key_ne (key : α → Nat) (f : α → α) (hf : ∀ x, key (f x) = key x)
    {l : List α} : ∀ y ∈ updateFirst (fun x => key x == k) f l, key y ≠ k → y ∈ l := by
  intro y hy hk
  rcases mem_updateFirst _ _ hy with h | ⟨x, hx, hpx, rfl⟩
  · exact h
  · exact absurd ((hf x).trans (by simpa using hpx)) hk

/-- With pairwise-distinct keys, `find?` locates any given member by its
key. -/
theorem find?_key_of_mem (key : α → Nat) {l : List α} (hnd : (l.map key).Nodup)
    {x : α} (hx : x ∈ l) (hk : key x = k) :
    l.find? (fun y => key y == k) = some x := by
  induction l with
  | nil => cases hx
  | cons a as ih =>
    have hnd1 : key a ∉ as.map key := (List.nodup_cons.1 hnd).1
    have hnd2 : (as.map key).Nodup := (List.nodup_cons.1 hnd).2
    by_cases ha : key a = k
    · rcases List.mem_cons.1 hx with rfl | h1
      · exact List.find?_cons_of_pos _ (by simpa using ha)
      · exact absurd (ha ▸ hk ▸ List.mem_map_of_mem key h1) hnd1
    · rcases List.mem_cons.1 hx with rfl | h1
      · exact absurd hk ha
      · rw [List.find?_cons_of_neg _ (by simpa using ha)]
        exact ih hnd2 h1

end KeyedLemmas

theorem inv_init : Inv init := by
  constructor <;> simp [init]

theorem Inv.updateThreats {s : SysState} (hinv : Inv s) (tid : Nat) (f : Threat → Threat)
    (hid : ∀ t, (f t).id = t.id)
    (hcat : ∀ t, (f t).category = t.category)
    (hra : ∀ t, remAction RemKind.quarantine ∉ t.response_actions.getD [] →
      remAction RemKind.quarantine ∉ (f t).response_actions.getD []) :
    Inv { s with threats := updateFirst (fun t => t.id == tid) f s.threats } := by
  constructor
  · show (updateFirst (fun t => t.id == tid) f s.threats).map Threat.id
      = List.range' 1 (updateFirst (fun t => t.id == tid) f s.threats).length
    rw [map_updateFirst_eq _ _ Threat.id hid, updateFirst_length]
    exact hinv.threat_ids
  · exact hinv.alert_ids
  · intro th hth
    rcases mem_updateFirst _ _ hth with h | ⟨x, hx, _, rfl⟩
    · exact hinv.no_qmsg th h
    · exact hra x (hinv.no_qmsg x hx)
  · exact hinv.no_qtask
  · intro tk htk hpc th hth hidth
    rcases mem_updateFirst _ _ hth with h | ⟨x, hx, _, rfl⟩
    · exact hinv.auto_safe tk htk hpc th h hidth
    · rw [hcat]
      exact hinv.auto_safe tk htk hpc x hx ((hid x) ▸ hidth)
  · intro tk htk
    rw [map_updateFirst_eq _ _ Threat.id hid]
    exact hinv.task_ref tk htk

theorem Inv.updateAlerts {s : SysState} (hinv : Inv s) (aid : Nat) (f : Alert → Alert)
    (hid : ∀ a, (f a).id = a.id) :
    Inv { s with system_alerts := updateFirst (fun a => a.id == aid) f s.system_alerts } := by
  constructor
  · exact hinv.threat_ids
  · show (updateFirst (fun a => a.id == aid) f s.system_alerts).map Alert.id
      = List.range' 1 (updateFirst (fun a => a.id == aid) f s.system_alerts).length
    rw [map_updateFirst_eq _ _ Alert.id hid, updateFirst_length]
    exact hinv.alert_ids
  · exact hinv.no_qmsg
  · exact hinv.no_qtask
  · exact hinv.auto_safe
  · exact hinv.task_ref

theorem Inv.appendTask {s : SysState} (hinv : Inv s) (tk : BgTask)
    (h1 : tk.pc ≠ TaskPC.autoRem RemKind.quarantine)
    (h2 : tk.pc = TaskPC.autoStart → ∀ th ∈ s.threats, th.id = tk.threat_id →
      remFor th.category ≠ some RemKind.quarantine)
    (h3 : tk.threat_id ∈ s.threats.map Threat.id) :
    Inv { s with tasks := s.tasks ++ [tk] } := by
  constructor
  · exact hinv.threat_ids
  · exact hinv.alert_ids
  · exact hinv.no_qmsg
  · intro t ht
    rcases List.mem_append.1 ht with h | h
    · exact hinv.no_qtask t h
    · rw [List.mem_singleton.1 h]; exact h1
  · intro t ht hpc th hth hidth
    rcases List.mem_append.1 ht with h | h
    · exact hinv.auto_safe t h hpc th hth hidth
    · have := List.mem_singleton.1 h
      subst this
      exact h2 hpc th hth hidth
  · intro t ht
    rcases List.mem_append.1 ht with h | h
    · exact hinv.task_ref t h
    · rw [List.mem_singleton.1 h]; exact h3

theorem Inv.eraseTask {s : SysState} (hinv : Inv s) (i : Nat) :
    Inv { s with tasks := s.tasks.eraseIdx i } := by
  constructor
  · exact hinv.threat_ids
  · exact hinv.alert_ids
  · exact hinv.no_qmsg
  · exact fun t ht => hinv.no_qtask t (List.eraseIdx_subset s.tasks i ht)
  · exact fun t ht => hinv.auto_safe t (List.eraseIdx_subset s.tasks i ht)
  · exact fun t ht => hinv.task_ref t (List.eraseIdx_subset s.tasks i ht)

/-- Adding a freshly-numbered threat (plus its alert and optional automated
task) preserves the invariant. -/
theorem Inv.createThreat {s : SysState} (hinv : Inv s) (th : Threat) (al : Alert)
    (tks : List BgTask)
    (hthid : th.id = s.threats.length + 1)
    (halid : al.id = s.system_alerts.length + 1)
    (hra : th.response_actions = none)
    (htks : ∀ tk ∈ tks, tk.threat_id = th.id ∧ tk.pc = TaskPC.autoStart)
    (hsafe : tks ≠ [] → remFor th.category ≠ some RemKind.quarantine) :
    Inv { s with threats := s.threats ++ [th],
                 system_alerts := s.system_alerts ++ [al],
                 tasks := s.tasks ++ tks } := by
  have hlt : ∀ m ∈ s.threats.map Threat.id, m < s.threats.length + 1 := by
    intro m hm
    rw [hinv.threat_ids] at hm
    have := (List.mem_range'_1.1 hm).2
    omega
  constructor
  · show (s.threats ++ [th]).map Threat.id = List.range' 1 (s.threats ++ [th]).length
    rw [List.map_append, hinv.threat_ids, List.length_append]
    simp [List.range'_1_concat, hthid, Nat.add_comm]
  · show (s.system_alerts ++ [al]).map Alert.id = List.range' 1 (s.system_alerts ++ [al]).length
    rw [List.map_append, hinv.alert_ids, List.length_append]
    simp [List.range'_1_concat, halid, Nat.add_comm]
  · intro t ht
    rcases List.mem_append.1 ht with h | h
    · exact hinv.no_qmsg t h
    · rw [List.mem_singleton.1 h, hra]
      simp
  · intro tk htk
    rcases List.mem_append.1 htk with h | h
    · exact hinv.no_qtask tk h
    · rw [(htks tk h).2]
      intro hcontra
      cases hcontra
  · intro tk htk hpc t ht hidt
    rcases List.mem_append.1 htk with h | h
    · rcases List.mem_append.1 ht with h2 | h2
      · exact hinv.auto_safe tk h hpc t h2 hidt
      · exfalso
        rw [List.mem_singleton.1 h2] at hidt
        have := hlt tk.threat_id (hinv.task_ref tk h)
        omega
    · rcases List.mem_append.1 ht with h2 | h2
      · exfalso
        have h3 := (htks tk h).1
        have := hlt t.id (List.mem_map_of_mem Threat.id h2)
        omega
      · rw [List.mem_singleton.1 h2]
        have hne : tks ≠ [] := by intro hnil; rw [hnil] at h; cases h
        exact hsafe hne
  · intro tk htk
    rw [List.map_append]
    rcases List.mem_append.1 htk with h | h
    · exact List.mem_append_left _ (hinv.task_ref tk h)
    · apply List.mem_append_right
      rw [(htks tk h).1]
      simp

/-! ### Preservation of the invariant by every event -/

theorem choose_mem (l : List String) (i : Nat) (h : l ≠ []) : choose l i ∈ l := by
  unfold choose
  have hlen : i % l.length < l.length := Nat.mod_lt _ (List.length_pos.2 h)
  simp only [List.getD_eq_getElem?_getD, List.getElem?_eq_getElem hlen, Option.getD_some]
  exact List.getElem_mem hlen

/-- A classification with the immediate-action flag set (the `critical` and
`high` branches) never carries a category that dispatches the
email-quarantine remediation. -/
theorem classify_immediate_safe (score : ℚ) (src : String) (cidx : Nat)
    (h : (classify_threat score src cidx).immediate_action = true) :
    remFor (classify_threat score src cidx).category ≠ some RemKind.quarantine := by
  unfold classify_threat at h ⊢
  split_ifs at h ⊢
  · have hmem := choose_mem ["APT", "Zero-day", "Data Breach"] cidx (by simp)
    dsimp only
    simp only [List.mem_cons, List.mem_singleton, List.not_mem_nil, or_false] at hmem
    rcases hmem with h4 | h4 | h4 <;> rw [h4] <;> decide
  · have hmem := choose_mem ["DDoS", "Malware", "Brute Force"] cidx (by simp)
    dsimp only
    simp only [List.mem_cons, List.mem_singleton, List.not_mem_nil, or_false] at hmem
    rcases hmem with h4 | h4 | h4 <;> rw [h4] <;> decide

/-- The quarantine action string never occurs in any playbook action list. -/
theorem quarantine_notin_playbook (a : String) :
    remAction RemKind.quarantine ∉ playbook_actions a := by
  unfold playbook_actions
  split_ifs <;> decide

theorem remAction_ne_quarantine {k : RemKind} (h : k ≠ RemKind.quarantine) :
    remAction k ≠ remAction RemKind.quarantine := by
  cases k
  · decide
  · decide
  · exact absurd rfl h

theorem inv_stepEv {s : SysState} (hinv : Inv s) (ev : Ev) : Inv (stepEv s ev) := by
  cases ev with
  | analyze e r cidx now =>
    show Inv (analyze_log s e r cidx now).2
    unfold analyze_log
    dsimp only
    split
    case isTrue hgt =>
      refine hinv.createThreat _ _ _ rfl rfl rfl ?_ ?_
      · intro tk htk
        split at htk
        · rw [List.mem_singleton.1 htk]
          exact ⟨rfl, rfl⟩
        · cases htk
      · intro hne
        by_cases hImm :
            (classify_threat (detect_anomaly e r) e.source cidx).immediate_action = true
        · exact classify_immediate_safe _ _ _ hImm
        · rw [if_neg hImm] at hne
          exact absurd rfl hne
    case isFalse => exact hinv
  | respond tid action now =>
    show Inv (respond_to_threat s tid action now).2
    unfold respond_to_threat
    rcases hf : findThreat s tid with _ | t
    · simp only [hf]
      exact hinv
    · simp only [hf]
      split
      case isTrue => exact hinv
      case isFalse =>
        have hmem : t ∈ s.threats := List.mem_of_find?_eq_some hf
        have htid : t.id = tid := by simpa using List.find?_some hf
        have h1 := hinv.updateThreats tid (respondUpdate action now)
          (fun t => rfl) (fun t => rfl) (fun t h => h)
        refine h1.appendTask ⟨tid, TaskPC.pbStart action⟩ (by simp) ?_ ?_
        · intro hpc
          simp at hpc
        · show tid ∈ (updateFirst (fun t => t.id == tid)
            (respondUpdate action now) s.threats).map Threat.id
          rw [map_updateFirst_eq _ (respondUpdate action now) Threat.id (fun t => rfl)]
          exact htid ▸ List.mem_map_of_mem Threat.id hmem
  | markRead aid now =>
    show Inv (mark_alert_read s aid now).2
    unfold mark_alert_read
    rcases hf : findAlert s aid with _ | a
    · simp only [hf]
      exact hinv
    · simp only [hf]
      exact hinv.updateAlerts aid (markReadUpdate now) (fun a => rfl)
  | runTask i now =>
    rcases hidx : s.tasks[i]? with _ | tk
    · simp only [stepEv, hidx]
      exact hinv
    · have htk : tk ∈ s.tasks := List.getElem?_mem hidx
      have hinv1 : Inv { s with tasks := s.tasks.eraseIdx i } := hinv.eraseTask i
      obtain ⟨tid, pc⟩ := tk
      simp only [stepEv, hidx]
      cases pc with
      | autoStart =>
        dsimp only [stepTask]
        rcases hf : findThreat { s with tasks := s.tasks.eraseIdx i } tid with _ | t
        · simp only [hf]
          rw [List.append_nil]
          exact hinv1
        · simp only [hf]
          have hmem : t ∈ s.threats := List.mem_of_find?_eq_some hf
          have htid : t.id = tid := by simpa using List.find?_some hf
          have hsafe : remFor t.category ≠ some RemKind.quarantine :=
            hinv.auto_safe ⟨tid, TaskPC.autoStart⟩ htk rfl t hmem htid
          have h1 := hinv1.updateThreats tid (mitigateUpdate now)
            (fun t => rfl) (fun t => rfl) (fun t h => h)
          have hrefmem : tid ∈ (updateFirst (fun t => t.id == tid)
              (mitigateUpdate now) s.threats).map Threat.id := by
            rw [map_updateFirst_eq _ (mitigateUpdate now) Threat.id (fun t => rfl)]
            exact htid ▸ List.mem_map_of_mem Threat.id hmem
          rcases hr : remFor t.category with _ | k
          · simp only [hr]
            refine h1.appendTask ⟨tid, TaskPC.autoFinish⟩ (by simp) ?_ hrefmem
            intro hpc
            simp at hpc
          · simp only [hr]
            have hk : k ≠ RemKind.quarantine := by
              intro hkq
              rw [hkq] at hr
              exact hsafe hr
            refine h1.appendTask ⟨tid, TaskPC.autoRem k⟩ (by simp [hk]) ?_ hrefmem
            intro hpc
            simp at hpc
      | autoRem k =>
        dsimp only [stepTask]
        have hkq : k ≠ RemKind.quarantine := by
          have := hinv.no_qtask ⟨tid, TaskPC.autoRem k⟩ htk
          simpa using this
        have h1 := hinv1.updateThreats tid (appendActionUpdate (remAction k))
          (fun t => rfl) (fun t => rfl)
          (fun t h => by
            intro hcontra
            rcases List.mem_append.1 hcontra with hc | hc
            · exact h hc
            · exact remAction_ne_quarantine hkq (List.mem_singleton.1 hc).symm)
        refine h1.appendTask ⟨tid, TaskPC.autoFinish⟩ (by simp) ?_ ?_
        · intro hpc
          simp at hpc
        · show tid ∈ (updateFirst (fun t => t.id == tid)
            (appendActionUpdate (remAction k)) s.threats).map Threat.id
          rw [map_updateFirst_eq _ (appendActionUpdate (remAction k)) Threat.id (fun t => rfl)]
          exact hinv.task_ref ⟨tid, TaskPC.autoRem k⟩ htk
      | autoFinish =>
        dsimp only [stepTask]
        rw [List.append_nil]
        exact hinv1.updateThreats tid (autoResolveUpdate now)
          (fun t => rfl) (fun t => rfl) (fun t h => h)
      | pbStart action =>
        dsimp only [stepTask]
        rcases hf : findThreat { s with tasks := s.tasks.eraseIdx i } tid with _ | t
        · simp only [hf]
          rw [List.append_nil]
          exact hinv1
        · simp only [hf]
          have hmem : t ∈ s.threats := List.mem_of_find?_eq_some hf
          have htid : t.id = tid := by simpa using List.find?_some hf
          have h1 := hinv1.updateThreats tid (playbookSetupUpdate action)
            (fun t => rfl) (fun t => rfl)
            (fun t h => quarantine_notin_playbook action)
          refine h1.appendTask ⟨tid, TaskPC.pbFinish action⟩ (by simp) ?_ ?_
          · intro hpc
            simp at hpc
          · show tid ∈ (updateFirst (fun t => t.id == tid)
              (playbookSetupUpdate action) s.threats).map Threat.id
            rw [map_updateFirst_eq _ (playbookSetupUpdate action) Threat.id (fun t => rfl)]
            exact htid ▸ List.mem_map_of_mem Threat.id hmem
      | pbFinish action =>
        dsimp only [stepTask]
        rw [List.append_nil]
        exact hinv1.updateThreats tid (playbookResolveUpdate action now)
          (fun t => rfl) (fun t => rfl) (fun t h => h)

theorem inv_foldl : ∀ (tr : List Ev) (s : SysState), Inv s → Inv (tr.foldl stepEv s)
  | [], _, h => h
  | e :: tr, s, h => inv_foldl tr (stepEv s e) (inv_stepEv h e)

/-- Every reachable state satisfies the store invariant. -/
theorem inv_run (tr : List Ev) : Inv (run tr) := inv_foldl tr init inv_init

/-! ### Claim theorems -/

/-- Auxiliary: a guarded accumulation fold equals the start value plus the
increment times the number of passing elements. -/
theorem foldl_if_add_count (c : ℚ) (P : String → Bool) :
    ∀ (l : List String) (acc : ℚ),
      l.foldl (fun sc p => if P p then sc + c else sc) acc
        = acc + c * (l.countP P : ℚ) := by
  intro l
  induction l with
  | nil => intro acc; simp
  | cons x xs ih =>
    intro acc
    rw [List.foldl_cons, List.countP_cons]
    by_cases h : P x = true
    · rw [if_pos h, ih, h]
      push_cast
      simp only [if_true]
      ring
    · rw [if_neg h, ih]
      simp only [h]
      push_cast
      ring

/-- C2: for every log event and noise draw in [0, 0.2), the anomaly score is
0.1 (base) plus 0.3 per distinct risk keyword occurring case-insensitively in
the message, plus the level increment (CRITICAL 0.4, ERROR 0.3, WARN 0.2,
other 0.1), plus the noise, clamped above at 1; consequently the score lies
in [0, 1]. -/
theorem anomaly_score_formula_and_range (e : LogEntry) (r : ℚ)
    (h0 : 0 ≤ r) (h1 : r < 1/5) :
    detect_anomaly e r = scoreSpec e r ∧
    0 ≤ detect_anomaly e r ∧ detect_anomaly e r ≤ 1 := by
  have hfold : detect_anomaly e r = scoreSpec e r := by
    unfold detect_anomaly scoreSpec keywordMatches
    dsimp only
    rw [foldl_if_add_count (3/10) (fun pattern => hasSub (lowerChars e.message) pattern.data)]
  have hlvl : (1:ℚ)/10 ≤ level_score e.level := by
    unfold level_score
    split_ifs <;> norm_num
  have hk : (0:ℚ) ≤ (keywordMatches e.message : ℚ) := Nat.cast_nonneg _
  have hpos : (0:ℚ) ≤ 1/10 + (3/10) * (keywordMatches e.message : ℚ) + level_score e.level + r := by
    have h3 : (0:ℚ) ≤ (3/10) * (keywordMatches e.message : ℚ) :=
      mul_nonneg (by norm_num) hk
    linarith
  refine ⟨hfold, ?_, ?_⟩
  · rw [hfold]
    unfold scoreSpec
    exact le_min hpos (by norm_num)
  · rw [hfold]
    unfold scoreSpec
    exact min_le_right _ _

/-- C6: the classification is a deterministic threshold map except for the
category draw: score > 0.9 gives critical/5/immediate with a category among
APT, Zero-day, Data Breach; 0.7 < score ≤ 0.9 gives high/4/immediate with a
category among DDoS, Malware, Brute Force; 0.5 < score ≤ 0.7 gives
medium/3/no-immediate with a category among Phishing, Policy Violation;
score ≤ 0.5 gives low/1/no-immediate with category Informational. -/
theorem classify_thresholds (score : ℚ) (src : String) (cidx : Nat) :
    (score > 9/10 →
      (classify_threat score src cidx).severity = "critical" ∧
      (classify_threat score src cidx).risk_level = 5 ∧
      (classify_threat score src cidx).immediate_action = true ∧
      (classify_threat score src cidx).category ∈ ["APT", "Zero-day", "Data Breach"]) ∧
    (score ≤ 9/10 → score > 7/10 →
      (classify_threat score src cidx).severity = "high" ∧
      (classify_threat score src cidx).risk_level = 4 ∧
      (classify_threat score src cidx).immediate_action = true ∧
      (classify_threat score src cidx).category ∈ ["DDoS", "Malware", "Brute Force"]) ∧
    (score ≤ 7/10 → score > 5/10 →
      (classify_threat score src cidx).severity = "medium" ∧
      (classify_threat score src cidx).risk_level = 3 ∧
      (classify_threat score src cidx).immediate_action = false ∧
      (classify_threat score src cidx).category ∈ ["Phishing", "Policy Violation"]) ∧
    (score ≤ 5/10 →
      (classify_threat score src cidx).severity = "low" ∧
      (classify_threat score src cidx).risk_level = 1 ∧
      (classify_threat score src cidx).immediate_action = false ∧
      (classify_threat score src cidx).category = "Informational") := by
  refine ⟨?_, ?_, ?_, ?_⟩
  · intro h
    unfold classify_threat
    rw [if_pos h]
    exact ⟨rfl, rfl, rfl, choose_mem _ _ (by simp)⟩
  · intro h9 h7
    unfold classify_threat
    rw [if_neg (not_lt.2 h9), if_pos h7]
    exact ⟨rfl, rfl, rfl, choose_mem _ _ (by simp)⟩
  · intro h7 h5
    unfold classify_threat
    rw [if_neg (not_lt.2 (le_trans h7 (by norm_num))), if_neg (not_lt.2 h7), if_pos h5]
    exact ⟨rfl, rfl, rfl, choose_mem _ _ (by simp)⟩
  · intro h5
    unfold classify_threat
    rw [if_neg (not_lt.2 (le_trans h5 (by norm_num))),
      if_neg (not_lt.2 (le_trans h5 (by norm_num))), if_neg (not_lt.2 h5)]
    exact ⟨rfl, rfl, rfl, rfl⟩

/-- C4: across every sequence of operations on one store instance, threat
identifiers are exactly 1, 2, ..., n in creation order — hence unique,
strictly increasing, starting at 1 and never reused — and likewise for
alert identifiers in their own namespace. -/
theorem ids_strictly_increasing_from_one (tr : List Ev) :
    (run tr).threats.map Threat.id = List.range' 1 (run tr).threats.length ∧
    (run tr).system_alerts.map Alert.id = List.range' 1 (run tr).system_alerts.length ∧
    List.Pairwise (· < ·) ((run tr).threats.map Threat.id) ∧
    List.Pairwise (· < ·) ((run tr).system_alerts.map Alert.id) := by
  refine ⟨(inv_run tr).threat_ids, (inv_run tr).alert_ids, ?_, ?_⟩
  · rw [(inv_run tr).threat_ids]
    exact List.pairwise_lt_range' 1 _
  · rw [(inv_run tr).alert_ids]
    exact List.pairwise_lt_range' 1 _

/-- C10: in every reachable execution the email-quarantine remediation step
is never executed: no threat ever carries the quarantine action string in
its response actions, and no pending task is ever about to run the
quarantine remediation segment. -/
theorem quarantine_email_never_executed (tr : List Ev) :
    (∀ th ∈ (run tr).threats,
      remAction RemKind.quarantine ∉ th.response_actions.getD []) ∧
    (∀ tk ∈ (run tr).tasks, tk.pc ≠ TaskPC.autoRem RemKind.quarantine) :=
  ⟨(inv_run tr).no_qmsg, (inv_run tr).no_qtask⟩

/-- C8 (amended): for every state and every positive limit, the history
endpoint returns the `limit` most recently inserted threats in insertion
order (all of them when the limit exceeds the history size) together with
the total history count. -/
theorem history_positive_limit (s : SysState) (limit : Nat) (h : 1 ≤ limit) :
    (get_threat_history s limit).1.length = min limit s.threats.length ∧
    (get_threat_history s limit).1 = s.threats.drop (s.threats.length - limit) ∧
    (s.threats.length ≤ limit → (get_threat_history s limit).1 = s.threats) ∧
    (get_threat_history s limit).2 = s.threats.length := by
  have hne : limit ≠ 0 := by omega
  unfold get_threat_history sliceLastPy
  rw [if_neg hne]
  refine ⟨?_, rfl, ?_, rfl⟩
  · rw [List.length_drop]
    omega
  · intro hle
    rw [Nat.sub_eq_zero_of_le hle, List.drop_zero]

/-- C3: a /analyze call whose computed score exceeds 0.6 appends exactly one
new threat (status `active`, id one past the previous maximum) and exactly
one new alert (id one past the previous alert maximum, referencing the new
threat), both returned in the response; a call whose score is at most 0.6
leaves the state unchanged and returns no threat or alert payload. -/
theorem analyze_creates_exactly_one_threat_and_alert (tr : List Ev) (e : LogEntry)
    (r : ℚ) (cidx now : Nat) :
    (detect_anomaly e r > 6/10 →
      ∃ th al,
        (analyze_log (run tr) e r cidx now).1.threat = some th ∧
        (analyze_log (run tr) e r cidx now).1.alert = some al ∧
        (analyze_log (run tr) e r cidx now).2.threats = (run tr).threats ++ [th] ∧
        (analyze_log (run tr) e r cidx now).2.system_alerts
          = (run tr).system_alerts ++ [al] ∧
        th.id = (run tr).threats.length + 1 ∧
        al.id = (run tr).system_alerts.length + 1 ∧
        al.threat_id = th.id ∧
        th.status = "active" ∧
        (∀ t ∈ (run tr).threats, t.id < th.id) ∧
        (∀ a ∈ (run tr).system_alerts, a.id < al.id)) ∧
    (detect_anomaly e r ≤ 6/10 →
      (analyze_log (run tr) e r cidx now).2 = run tr ∧
      (analyze_log (run tr) e r cidx now).1.threat = none ∧
      (analyze_log (run tr) e r cidx now).1.alert = none ∧
      (analyze_log (run tr) e r cidx now).1.threat_detected = false) := by
  constructor
  · intro hgt
    unfold analyze_log
    dsimp only
    rw [if_pos hgt]
    refine ⟨_, _, rfl, rfl, rfl, rfl, rfl, rfl, rfl, rfl, ?_, ?_⟩
    · intro t ht
      have h2 : t.id ∈ (run tr).threats.map Threat.id := List.mem_map_of_mem Threat.id ht
      rw [(inv_run tr).threat_ids] at h2
      have h3 := (List.mem_range'_1.1 h2).2
      show t.id < (run tr).threats.length + 1
      omega
    · intro a ha
      have h2 : a.id ∈ (run tr).system_alerts.map Alert.id := List.mem_map_of_mem Alert.id ha
      rw [(inv_run tr).alert_ids] at h2
      have h3 := (List.mem_range'_1.1 h2).2
      show a.id < (run tr).system_alerts.length + 1
      omega
  · intro hle
    unfold analyze_log
    dsimp only
    rw [if_neg (not_lt.2 hle)]
    exact ⟨rfl, rfl, rfl, rfl⟩

/-- C5: POST /threats/{id}/respond returns NotFound (404) and leaves the
state unchanged when no threat carries the id; returns InvalidState (400)
and leaves the state unchanged when the threat exists but is not `active`;
and otherwise succeeds, turning exactly that threat to `responding`, while
recording the response-initiation timestamp and response type and appending
the playbook-execution task. -/
theorem respond_semantics (tr : List Ev) (tid : Nat) (action : String) (now : Nat) :
    ((∀ th ∈ (run tr).threats, th.id ≠ tid) →
      (respond_to_threat (run tr) tid action now).1 = RespondResult.notFound ∧
      (respond_to_threat (run tr) tid action now).2 = run tr) ∧
    (∀ th ∈ (run tr).threats, th.id = tid → th.status ≠ "active" →
      (respond_to_threat (run tr) tid action now).1 = RespondResult.invalidState ∧
      (respond_to_threat (run tr) tid action now).2 = run tr) ∧
    (∀ th ∈ (run tr).threats, th.id = tid → th.status = "active" →
      (respond_to_threat (run tr) tid action now).1 = RespondResult.success action ∧
      (respond_to_threat (run tr) tid action now).2.tasks
        = (run tr).tasks ++ [⟨tid, TaskPC.pbStart action⟩] ∧
      (respond_to_threat (run tr) tid action now).2.system_alerts
        = (run tr).system_alerts ∧
      (respond_to_threat (run tr) tid action now).2.threats.map Threat.id
        = (run tr).threats.map Threat.id ∧
      (∀ t2 ∈ (respond_to_threat (run tr) tid action now).2.threats, t2.id = tid →
        t2.status = "responding" ∧ t2.response_initiated = some now ∧
        t2.response_type = some action) ∧
      (∀ t2 ∈ (respond_to_threat (run tr) tid action now).2.threats, t2.id ≠ tid →
        t2 ∈ (run tr).threats)) := by
  have hnd : ((run tr).threats.map Threat.id).Nodup := by
    rw [(inv_run tr).threat_ids]
    exact List.nodup_range' 1 _
  refine ⟨?_, ?_, ?_⟩
  · intro hno
    have hfind : findThreat (run tr) tid = none := by
      unfold findThreat
      rw [List.find?_eq_none]
      intro x hx
      simpa using hno x hx
    unfold respond_to_threat
    rw [hfind]
    exact ⟨rfl, rfl⟩
  · intro th hth htid hstat
    have hfind : findThreat (run tr) tid = some th :=
      find?_key_of_mem Threat.id hnd hth htid
    unfold respond_to_threat
    rw [hfind]
    dsimp only
    rw [if_pos hstat]
    exact ⟨rfl, rfl⟩
  · intro th hth htid hstat
    have hfind : findThreat (run tr) tid = some th :=
      find?_key_of_mem Threat.id hnd hth htid
    unfold respond_to_threat
    rw [hfind]
    dsimp only
    rw [if_neg (not_not_intro hstat)]
    refine ⟨rfl, rfl, rfl,
      map_updateFirst_eq _ (respondUpdate action now) Threat.id (fun t => rfl) _, ?_, ?_⟩
    · intro t2 ht2 htid2
      rcases updateFirst_key_eq Threat.id hnd t2 ht2 htid2 with ⟨x, hx, hxk, rfl⟩
      exact ⟨rfl, rfl, rfl⟩
    · intro t2 ht2 hne
      exact updateFirst_key_ne Threat.id (respondUpdate action now)
        (fun x => rfl) t2 ht2 hne

/-- C7: marking an already-read alert read again is idempotent in effect:
the second call succeeds, every alert's read flag (keyed by id) is exactly
as after the first call — in particular the alert is still read — and the
rest of the state is untouched. -/
theorem mark_read_idempotent (s : SysState) (aid : Nat) (now1 now2 : Nat)
    (h : (mark_alert_read s aid now1).1 = MarkResult.success) :
    (mark_alert_read (mark_alert_read s aid now1).2 aid now2).1 = MarkResult.success ∧
    (mark_alert_read (mark_alert_read s aid now1).2 aid now2).2.system_alerts.map
        (fun a => (a.id, a.read))
      = (mark_alert_read s aid now1).2.system_alerts.map (fun a => (a.id, a.read)) ∧
    (∃ a ∈ (mark_alert_read (mark_alert_read s aid now1).2 aid now2).2.system_alerts,
      a.id = aid ∧ a.read = true) ∧
    (mark_alert_read (mark_alert_read s aid now1).2 aid now2).2.threats
      = (mark_alert_read s aid now1).2.threats ∧
    (mark_alert_read (mark_alert_read s aid now1).2 aid now2).2.tasks
      = (mark_alert_read s aid now1).2.tasks := by
  rcases hf : findAlert s aid with _ | a0
  · exfalso
    unfold mark_alert_read at h
    rw [hf] at h
    cases h
  · have hp : ∀ a : Alert, ((markReadUpdate now1 a).id == aid) = (a.id == aid) :=
      fun a => rfl
    have hf1 : findAlert (mark_alert_read s aid now1).2 aid
        = some (markReadUpdate now1 a0) := by
      unfold mark_alert_read
      rw [hf]
      show (updateFirst (fun a => a.id == aid) (markReadUpdate now1)
        s.system_alerts).find? (fun a => a.id == aid) = some (markReadUpdate now1 a0)
      rw [find?_updateFirst _ _ hp]
      unfold findAlert at hf
      rw [hf]
      rfl
    have ha0 : a0.id = aid := by simpa using List.find?_some hf
    set s1 := (mark_alert_read s aid now1).2 with hs1
    have halerts : s1.system_alerts
        = updateFirst (fun a => a.id == aid) (markReadUpdate now1) s.system_alerts := by
      rw [hs1]
      unfold mark_alert_read
      rw [hf]
    have hfind1 : s1.system_alerts.find? (fun a => a.id == aid)
        = some (markReadUpdate now1 a0) := hf1
    refine ⟨?_, ?_, ?_, ?_, ?_⟩
    · unfold mark_alert_read
      rw [hf1]
    · unfold mark_alert_read
      rw [hf1]
      dsimp only
      rw [halerts, updateFirst_updateFirst _ _ _ hp]
      exact map_updateFirst_congr _ (fun a : Alert => (a.id, a.read))
        (fun x => markReadUpdate now2 (markReadUpdate now1 x)) (markReadUpdate now1)
        (fun x => rfl) _
    · have hf2 : findAlert (mark_alert_read s1 aid now2).2 aid
          = some (markReadUpdate now2 (markReadUpdate now1 a0)) := by
        unfold mark_alert_read
        rw [hf1]
        show (updateFirst (fun a => a.id == aid) (markReadUpdate now2)
            s1.system_alerts).find? (fun a => a.id == aid)
          = some (markReadUpdate now2 (markReadUpdate now1 a0))
        rw [find?_updateFirst _ _ hp, hfind1]
        rfl
      have hmem := List.mem_of_find?_eq_some hf2
      exact ⟨markReadUpdate now2 (markReadUpdate now1 a0), hmem, ha0, rfl⟩
    · unfold mark_alert_read
      rw [hf1]
    · unfold mark_alert_read
      rw [hf1]

/-! ### Concrete evaluations: bug exhibits, counterexamples and witnesses -/

section ConcreteEvaluations

attribute [local semireducible] Rat.add Rat.mul Rat.inv Rat.sub Rat.ofScientific

/-- C1 (bug exhibit): in the interleaving where the explicit playbook task
finishes before the automated-response task's first segment runs, threat 1
is `resolved` and the next scheduler step moves it back to `mitigating` — a
transition out of the terminal state and backwards along the
active → responding → mitigating → resolved chain.  Trace: a CRITICAL
"brute force attack detected" event (noise 0, category draw 0) creates
threat 1 (high/DDoS, immediate action, automated task scheduled); /respond
moves it to `responding` and schedules the playbook; the playbook's two
segments run (the second resolves the threat); then the pending
automated-response segment runs and overwrites the status with
`mitigating`. -/
theorem resolved_reentered_by_auto_task :
    (run [Ev.analyze e0 0 0 0, Ev.respond 1 "auto_mitigate" 1,
          Ev.runTask 1 2, Ev.runTask 1 3]).threats.map Threat.status = ["resolved"] ∧
    (run [Ev.analyze e0 0 0 0, Ev.respond 1 "auto_mitigate" 1,
          Ev.runTask 1 2, Ev.runTask 1 3, Ev.runTask 0 4]).threats.map Threat.status
      = ["mitigating"] := by
  constructor <;> decide

/-- C9: the log id equals the number of previously created threats plus one
(`len(threat_history) + 1`), not a per-call counter; two /analyze calls that
create no threat (score ≤ 0.6) therefore return the same log id 1. -/
theorem log_id_counts_threats_not_calls :
    (∀ (s : SysState) (e : LogEntry) (r : ℚ) (cidx now : Nat),
      (analyze_log s e r cidx now).1.log_id = s.threats.length + 1) ∧
    (analyze_log (run []) eLow 0 0 0).1.threat = none ∧
    (analyze_log ((analyze_log (run []) eLow 0 0 0).2) eLow 0 0 1).1.threat = none ∧
    (analyze_log (run []) eLow 0 0 0).1.log_id = 1 ∧
    (analyze_log ((analyze_log (run []) eLow 0 0 0).2) eLow 0 0 1).1.log_id = 1 := by
  refine ⟨?_, by decide, by decide, by decide, by decide⟩
  intro s e r cidx now
  unfold analyze_log
  dsimp only
  split <;> rfl

/-- C8 counterexample: with one threat in the history, limit 0 returns the
full history (Python `history[-0:]` is the whole list), not at most 0
threats as the claim states for every non-negative limit. -/
theorem history_limit_zero_counterexample :
    (run [Ev.analyze e0 0 0 0]).threats.length = 1 ∧
    ¬ ((get_threat_history (run [Ev.analyze e0 0 0 0]) 0).1.length ≤ 0) := by
  constructor <;> decide

/-- Witness for C2 at the concrete CRITICAL brute-force event with noise 0. -/
theorem anomaly_score_formula_and_range_witness :
    detect_anomaly e0 0 = scoreSpec e0 0 ∧
    0 ≤ detect_anomaly e0 0 ∧ detect_anomaly e0 0 ≤ 1 :=
  anomaly_score_formula_and_range e0 0 (by norm_num) (by norm_num)

/-- Witness for C6 at scores 0.95, 0.8, 0.6 and 0.3. -/
theorem classify_thresholds_witness :
    ((classify_threat (95/100) "x" 0).severity = "critical" ∧
     (classify_threat (95/100) "x" 0).risk_level = 5 ∧
     (classify_threat (95/100) "x" 0).immediate_action = true ∧
     (classify_threat (95/100) "x" 0).category ∈ ["APT", "Zero-day", "Data Breach"]) ∧
    ((classify_threat (8/10) "x" 0).severity = "high" ∧
     (classify_threat (8/10) "x" 0).risk_level = 4 ∧
     (classify_threat (8/10) "x" 0).immediate_action = true ∧
     (classify_threat (8/10) "x" 0).category ∈ ["DDoS", "Malware", "Brute Force"]) ∧
    ((classify_threat (6/10) "x" 0).severity = "medium" ∧
     (classify_threat (6/10) "x" 0).risk_level = 3 ∧
     (classify_threat (6/10) "x" 0).immediate_action = false ∧
     (classify_threat (6/10) "x" 0).category ∈ ["Phishing", "Policy Violation"]) ∧
    ((classify_threat (3/10) "x" 0).severity = "low" ∧
     (classify_threat (3/10) "x" 0).risk_level = 1 ∧
     (classify_threat (3/10) "x" 0).immediate_action = false ∧
     (classify_threat (3/10) "x" 0).category = "Informational") :=
  ⟨(classify_thresholds (95/100) "x" 0).1 (by norm_num),
   (classify_thresholds (8/10) "x" 0).2.1 (by norm_num) (by norm_num),
   (classify_thresholds (6/10) "x" 0).2.2.1 (by norm_num) (by norm_num),
   (classify_thresholds (3/10) "x" 0).2.2.2 (by norm_num)⟩

/-- Witness for C3: the concrete high-score event appends exactly one threat
and one alert to the empty store. -/
theorem analyze_creates_exactly_one_threat_and_alert_witness :
    (analyze_log (run []) e0 0 0 0).2.threats.length = (run []).threats.length + 1 ∧
    (analyze_log (run []) e0 0 0 0).2.system_alerts.length
      = (run []).system_alerts.length + 1 := by
  obtain ⟨th, al, h1, h2, h3, h4, h5, h6, h7, h8, h9, h10⟩ :=
    (analyze_creates_exactly_one_threat_and_alert [] e0 0 0 0).1 (by decide)
  rw [h3, h4, List.length_append, List.length_append]
  exact ⟨rfl, rfl⟩

/-- Witness for C5: responding to the freshly created active threat 1
succeeds. -/
theorem respond_semantics_witness :
    (respond_to_threat (run [Ev.analyze e0 0 0 0]) 1 "auto_mitigate" 5).1
      = RespondResult.success "auto_mitigate" :=
  ((respond_semantics [Ev.analyze e0 0 0 0] 1 "auto_mitigate" 5).2.2
    ((run [Ev.analyze e0 0 0 0]).threats.get ⟨0, by decide⟩)
    (List.get_mem _ _ _) (by decide) (by decide)).1

/-- Witness for C7: marking alert 1 read twice still reports success. -/
theorem mark_read_idempotent_witness :
    (mark_alert_read (mark_alert_read (run [Ev.analyze e0 0 0 0]) 1 7).2 1 8).1
      = MarkResult.success :=
  (mark_read_idempotent (run [Ev.analyze e0 0 0 0]) 1 7 8 (by decide)).1

/-- Witness for the amended C8: limit 100 on a one-element history returns
the whole history. -/
theorem history_positive_limit_witness :
    (get_threat_history (run [Ev.analyze e0 0 0 0]) 100).1
      = (run [Ev.analyze e0 0 0 0]).threats :=
  (history_positive_limit (run [Ev.analyze e0 0 0 0]) 100 (by norm_num)).2.2.1 (by decide)

/-- Witness for C10 on a trace whose automated response ran to completion
(threat 1 got the IP-block remediation, never the quarantine one). -/
theorem quarantine_email_never_executed_witness :
    remAction RemKind.quarantine ∉
      ((run [Ev.analyze e0 0 0 0, Ev.runTask 0 1, Ev.runTask 0 2,
             Ev.runTask 0 3]).threats.get ⟨0, by decide⟩).response_actions.getD [] :=
  (quarantine_email_never_executed
    [Ev.analyze e0 0 0 0, Ev.runTask 0 1, Ev.runTask 0 2, Ev.runTask 0 3]).1
    _ (List.get_mem _ _ _)

end ConcreteEvaluations

end SafeguardX
